import Mathlib

/-!
Shallow embedding of `src/parseGT3X.cpp` (the GT3X log-record parser) and
proofs about it.  Machine integers are modelled as `ℕ`/`ℤ` with explicit
`% 2^w` where wraparound matters; C++ `double` computations whose operands
and results are exactly representable are modelled over `ℚ`.
-/

namespace GT3X

/-! ### Byte-stream model (`std::ifstream`) -/

/-- Model of the `std::ifstream` byte stream: the file contents, the current
read position, and the fail state (`failbit`).  Once `failed` is set, every
subsequent read is a no-op that keeps the fail state, matching C++ stream
semantics (failbit is never cleared in this program). -/
structure GStream where
  data : List ℕ
  pos : ℕ
  failed : Bool
deriving Repr, DecidableEq

/-- `std::ifstream::get()`: returns the next byte, or `-1` (EOF) after setting
the fail state when the stream is exhausted or already failed.  (`% 256`
normalizes the model's byte list; file bytes are always `< 256`.) -/
def GStream.get (s : GStream) : ℤ × GStream :=
  if s.failed then (-1, s)
  else
    match s.data[s.pos]? with
    | some b => ((b % 256 : ℕ), { s with pos := s.pos + 1 })
    | none => (-1, { s with failed := true })

/-- `stream.read(reinterpret_cast<char*>(&v), w)` for a little-endian `w`-byte
unsigned integer whose current (stale) value is `old`: bytes that are present
replace the low-order bytes of `old`; if fewer than `w` bytes remain, the fail
state is set and the unread high-order bytes of `old` are kept (a C++
unformatted read leaves the not-written buffer bytes untouched on failure). -/
def readLEStale : GStream → ℕ → ℕ → ℕ × GStream
  | s, 0, old => (old, s)
  | s, w + 1, old =>
    if s.failed then (old, s)
    else
      match s.data[s.pos]? with
      | none => (old, { s with failed := true })
      | some b =>
        let r := readLEStale { s with pos := s.pos + 1 } w (old / 256)
        (b % 256 + 256 * r.1, r.2)

/-- `seekg(n, std::ios::cur)`: forward seek; a no-op when the fail state is set
(the sentry of `seekg` fails on `failbit`). -/
def seekCur (s : GStream) (n : ℕ) : GStream :=
  if s.failed then s else { s with pos := s.pos + n }

/-! ### Machine-integer reinterpretations -/

/-- Reinterpret a 16-bit unsigned value as `int16_t` (two's complement). -/
def toInt16 (x : ℕ) : ℤ :=
  if x % 65536 < 32768 then (x % 65536 : ℤ) else (x % 65536 : ℤ) - 65536

/-- The 16-bit unsigned (two's-complement) memory image of an `int16_t`. -/
def uint16Rep (i : ℤ) : ℕ := (i % 65536).toNat

/-- Reinterpret a 32-bit unsigned value as `int32_t` (two's complement).
Also models the (wrapping) conversion of a `uint32_t` into an `int` slot of an
Rcpp `IntegerVector`. -/
def toInt32 (x : ℕ) : ℤ :=
  if x % 4294967296 < 2147483648 then (x % 4294967296 : ℤ)
  else (x % 4294967296 : ℤ) - 4294967296

/-- `uint32_t` subtraction `a - b` (wraps modulo `2^32`). -/
def u32diff (a b : ℕ) : ℕ :=
  (a % 4294967296 + 4294967296 - b % 4294967296) % 4294967296

/-- C `round`: round half away from zero. -/
def roundAway (q : ℚ) : ℤ := if 0 ≤ q then ⌊q + 1 / 2⌋ else -⌊-q + 1 / 2⌋

/-! ### Constants (`parseGT3X.cpp` lines 18-55) -/

def N_ACTIVITYCOLUMNS : ℕ := 3
def SIGNIF_DIGITS : ℕ := 3
def TIME_UNIT : ℕ := 100

def RECORDTYPE_ACTIVITY : ℕ := 0x00
def RECORDTYPE_PARAMETERS : ℕ := 0x15
def RECORDTYPE_ACTIVITY2 : ℕ := 0x1A

/-- `PARAM_FLOAT_MAXIMUM = 8388608.0 = 2^23`. -/
def PARAM_FLOAT_MAXIMUM : ℚ := 8388608
def PARAM_ENCODED_MINIMUM : ℕ := 0x00800000
def PARAM_ENCODED_MAXIMUM : ℕ := 0x007FFFFF

/-- The exact value of `DBL_MAX` (IEEE-754 binary64): `(2^53 - 1) * 2^971`
(computed in `ℕ` so that it evaluates by accelerated arithmetic). -/
def DBL_MAX : ℚ := (((2 ^ 53 - 1) * 2 ^ 971 : ℕ) : ℚ)

/-! ### `decodeFloatParameterValue` (lines 67-92)

Every `double` produced on the non-sentinel path is exactly representable
(|significand| ≤ 2^23 and exponent ∈ [-128, 127]), so `ℚ` models the C++
`double` arithmetic exactly. -/

/-- `decodeFloatParameterValue(value)`.  The mask-and-shift expressions are
written arithmetically: for `value < 2^32`,
`(value & PARAM_EXPONENT_MASK) >> PARAM_EXPONENT_OFFSET = value / 2^24 % 256`,
`value & PARAM_SIGNIFICAND_MASK = value % 2^24`, the test `i32 & 0x80 != 0` is
`128 ≤ e0`, the test `i32 & PARAM_ENCODED_MINIMUM != 0` is `2^23 ≤ s0`, and the
sign-extending ORs `i32 | 0xFFFFFF00` and `i32 | 0xFF000000` are additions of
the (disjoint) mask to the value. -/
def decodeFloatParameterValue (value : ℕ) : ℚ :=
  if value = PARAM_ENCODED_MAXIMUM then DBL_MAX
  else if value = PARAM_ENCODED_MINIMUM then -DBL_MAX
  else
    ((((if 2 ^ 23 ≤ value % 2 ^ 24 then toInt32 (0xFF000000 + value % 2 ^ 24)
        else ((value % 2 ^ 24 : ℕ) : ℤ)) : ℤ) : ℚ) / PARAM_FLOAT_MAXIMUM) *
      2 ^ ((if 128 ≤ value / 2 ^ 24 % 256 then toInt32 (0xFFFFFF00 + value / 2 ^ 24 % 256)
        else ((value / 2 ^ 24 % 256 : ℕ) : ℤ)) : ℤ)

/-- Spec-side definition (§4.1): a "sign-extended 8-bit" value — `x` read as a
signed byte. -/
def sext8 (x : ℕ) : ℤ :=
  if x % 256 < 128 then (x % 256 : ℤ) else (x % 256 : ℤ) - 256

/-- Spec-side definition (§4.1): a "sign-extended 24-bit significand" — the low
24 bits of `x` read as a signed 24-bit integer. -/
def sext24 (x : ℕ) : ℤ :=
  if x % 2 ^ 24 < 2 ^ 23 then (x % 2 ^ 24 : ℤ) else (x % 2 ^ 24 : ℤ) - 2 ^ 24

/-! ### `createTimeStamp` (lines 153-155) -/

/-- `createTimeStamp(payload_start, i, sample_rate, start_time)`:
`round(((double)(payload_start - start_time) + (double)i * (1.0/sample_rate)) * TIME_UNIT)`
returned as `uint32_t`.  The subtraction wraps in `uint32_t`; the `double`
arithmetic is modelled exactly over `ℚ` and the `double → uint32_t` return
conversion as `% 2^32`. -/
def createTimeStamp (payload_start i sample_rate start_time : ℕ) : ℕ :=
  (roundAway (((u32diff payload_start start_time : ℚ) +
      (i : ℚ) * (1 / (sample_rate : ℚ))) * (TIME_UNIT : ℚ))).toNat % 4294967296

/-! ### `bytes2samplesize` (lines 257-266) -/

/-- Convert a record payload byte count to the expected sample count for the
two activity formats (integer division as in C++). -/
def bytes2samplesize (ty bytes : ℕ) : ℕ :=
  if ty = RECORDTYPE_ACTIVITY then bytes * 2 / 9
  else if ty = RECORDTYPE_ACTIVITY2 then bytes / 2 / 3
  else 0

/-! ### The output containers

`NumericMatrix activityMatrix(max_samples, 3)` is a zero-initialized matrix of
`double`s, modelled as a list of 3-element `ℚ` rows; `IntegerVector
timeStamps(max_samples)` is a zero-initialized `int` vector, modelled as a
`List ℤ`. -/

/-- Write matrix cell `(i, j)` (row-index / column-index, in bounds whenever
the C++ write is, since the capacity check keeps all writes in range). -/
def setCell (m : List (List ℚ)) (i j : ℕ) (v : ℚ) : List (List ℚ) :=
  m.set i ((m.getD i []).set j v)

/-! ### `ParseParameters` (lines 96-139)

Only the `start_time` assignment (address 1, key 12) and the stream
consumption are durable; the `decodeFloatParameterValue` call for the
float-valued keys and all `Rcout` output are diagnostics without effect on the
returned data.  The locals `address`, `key`, `value` are uninitialized in the
C++ and persist across loop iterations (reads that fail keep the stale bytes);
their initial values are modelled as 0. -/

/-- The loop body of `ParseParameters`, iterated `n_params` times.  Arguments:
stream, stale `address`/`key`/`value` locals, `start_time`, remaining
iterations.  Returns the stream and the (possibly updated) `start_time`. -/
def ParseParametersLoop : GStream → ℕ → ℕ → ℕ → ℕ → ℕ → GStream × ℕ
  | s, _, _, _, st, 0 => (s, st)
  | s, addr, key, value, st, n + 1 =>
    let ra := readLEStale s 2 addr
    let rk := readLEStale ra.2 2 key
    let rv := readLEStale rk.2 4 value
    let st' :=
      if ra.1 = 0 then st
      else if ra.1 = 1 then (if rk.1 = 12 then rv.1 else st)
      else st
    ParseParametersLoop rv.2 ra.1 rk.1 rv.1 st' n

/-- `ParseParameters(stream, bytes, start_time, verbose)`:
`n_params = bytes / 8` entries of (address:2, key:2, value:4) little-endian. -/
def ParseParameters (s : GStream) (bytes : ℕ) (start_time : ℕ) : GStream × ℕ :=
  ParseParametersLoop s 0 0 0 start_time (bytes / 8)

/-! ### `ParseActivity2` (lines 160-172), 16-bit little-endian samples

There is no stream check in the C++ loop: a read that fails leaves the
`int16_t item` local with its previous (stale) value, which is then written
into the matrix.  `item` is uninitialized in the C++; its initial value is
modelled as 0. -/

/-- The inner `j` (axis) loop of `ParseActivity2`: `cnt` remaining columns of
`N_ACTIVITYCOLUMNS`; the column written is `3 - cnt`. -/
def ParseA2Cols : GStream → ℤ → List (List ℚ) → ℕ → ℕ → GStream × ℤ × List (List ℚ)
  | s, item, m, _, 0 => (s, item, m)
  | s, item, m, row, c + 1 =>
    let r := readLEStale s 2 (uint16Rep item)
    let item' := toInt16 r.1
    ParseA2Cols r.2 item' (setCell m row (3 - (c + 1)) (item' : ℚ)) row c

/-- The outer `i` (sample) loop of `ParseActivity2`: writes row `i + start`
and its timestamp, `cnt` samples remaining. -/
def ParseA2Rows (ps rate st start : ℕ) :
    GStream → ℤ → List (List ℚ) → List ℤ → ℕ → ℕ → GStream × ℤ × List (List ℚ) × List ℤ
  | s, item, m, ts, _, 0 => (s, item, m, ts)
  | s, item, m, ts, i, c + 1 =>
    let r := ParseA2Cols s item m (i + start) 3
    let ts' := ts.set (i + start) (toInt32 (createTimeStamp ps i rate st))
    ParseA2Rows ps rate st start r.1 r.2.1 r.2.2 ts' (i + 1) c

/-- `ParseActivity2(stream, activity, timeStamps, start, sample_size,
payload_start, sample_rate, start_time, debug)`. -/
def ParseActivity2 (s : GStream) (m : List (List ℚ)) (ts : List ℤ)
    (start sample_size ps rate st : ℕ) : GStream × List (List ℚ) × List ℤ :=
  let r := ParseA2Rows ps rate st start s 0 m ts 0 sample_size
  (r.1, r.2.2.1, r.2.2.2)

/-! ### `ParseActivity` (lines 177-222), 12-bit packed samples

`current` is an `int` that holds the last `get()` result (`-1` on EOF); the
masks applied to it are modelled arithmetically on its Euclidean residues:
`current & 0xFF = current % 256`, `(current & 0xF0) >> 4 = current % 256 / 16`,
`(current & 0x0F) << 8 = current % 16 * 256` (two's complement low bits agree
with the Euclidean remainder).  The 12-bit field assembly and the
sign-extension OR are kept as genuine bit operations on `ℕ`. -/

/-- Sign-extension of an assembled 12-bit field (lines 212-217): if bit 11 is
set, OR with `0xF000`, then reinterpret the 16-bit pattern as `int16_t`. -/
def signExt12 (shifter : ℕ) : ℤ :=
  toInt16 (if shifter &&& 0x0800 ≠ 0 then shifter ||| 0xF000 else shifter)

/-- Decode one 12-bit value (the body of the inner `j` loop of
`ParseActivity` before the matrix write).  Returns the stream, the updated
`current` byte, and the decoded value — `none` when the odd-phase `get` hit
the fail state (`if (!stream) break`).  The even phase performs no stream
check. -/
def parseAVal (s : GStream) (odd : Bool) (current : ℤ) : GStream × ℤ × Option ℤ :=
  if odd = false then
    let r1 := s.get
    let sh1 : ℕ := ((r1.1 % 256).toNat) <<< 4
    let r2 := r1.2.get
    let shifter : ℕ := sh1 ||| ((r2.1 % 256).toNat >>> 4)
    (r2.2, r2.1, some (signExt12 shifter))
  else
    let sh1 : ℕ := ((current % 16).toNat) <<< 8
    let r2 := s.get
    if r2.2.failed then (r2.2, r2.1, none)
    else
      let shifter : ℕ := sh1 ||| (r2.1 % 256).toNat
      (r2.2, r2.1, some (signExt12 shifter))

/-- The inner `j` (axis) loop of `ParseActivity`: `cnt` remaining columns; the
column written is `3 - cnt`.  On `break` the phase flag is left untouched and
the remaining columns of the row are not written. -/
def ParseACols (row : ℕ) : GStream → Bool → ℤ → List (List ℚ) → ℕ →
    GStream × Bool × ℤ × List (List ℚ)
  | s, odd, cur, m, 0 => (s, odd, cur, m)
  | s, odd, cur, m, c + 1 =>
    let r := parseAVal s odd cur
    match r.2.2 with
    | none => (r.1, odd, r.2.1, m)
    | some v => ParseACols row r.1 (!odd) r.2.1 (setCell m row (3 - (c + 1)) (v : ℚ)) c

/-- The outer `i` (sample) loop of `ParseActivity`: the timestamp of row
`i + start` is written even when the axis loop broke off early. -/
def ParseARows (ps rate st start : ℕ) :
    GStream → Bool → ℤ → List (List ℚ) → List ℤ → ℕ → ℕ →
    GStream × Bool × ℤ × List (List ℚ) × List ℤ
  | s, odd, cur, m, ts, _, 0 => (s, odd, cur, m, ts)
  | s, odd, cur, m, ts, i, c + 1 =>
    let r := ParseACols (i + start) s odd cur m 3
    let ts' := ts.set (i + start) (toInt32 (createTimeStamp ps i rate st))
    ParseARows ps rate st start r.1 r.2.1 r.2.2.1 r.2.2.2 ts' (i + 1) c

/-- `ParseActivity(stream, activity, timeStamps, start, sample_size,
payload_start, sample_rate, start_time, debug)`; `odd = 0` and `current = 0`
initialized as in the C++. -/
def ParseActivity (s : GStream) (m : List (List ℚ)) (ts : List ℤ)
    (start sample_size ps rate st : ℕ) : GStream × List (List ℚ) × List ℤ :=
  let r := ParseARows ps rate st start s false 0 m ts 0 sample_size
  (r.1, r.2.2.2.1, r.2.2.2.2)

/-! ### `ParseHeader` (lines 235-239) -/

/-- `ParseHeader(stream, type, timestamp, size)`: reads type (1 byte),
payload-start timestamp (4 bytes LE), size (2 bytes LE) into the caller's
(stale) locals.  Returns (stream, type, payload_start, size). -/
def ParseHeader (s : GStream) (ty ps sz : ℕ) : GStream × ℕ × ℕ × ℕ :=
  let rt := readLEStale s 1 ty
  let rp := readLEStale rt.2 4 ps
  let rs := readLEStale rp.2 2 sz
  (rs.2, rt.1, rp.1, rs.1)

/-! ### `scaleAndRoundActivity` (lines 242-252) -/

/-- Scale and round one matrix cell:
`round((M(i,j) / scale) * 10^digits) / 10^digits` with `digits = 3`. -/
def scaleCell (scale v : ℚ) : ℚ := (roundAway (v / scale * 1000) : ℚ) / 1000

/-- `scaleAndRoundActivity(M, scale, records)`: only rows `< records` are
scaled (cells are independent, so the row-major traversal of the model equals
the C++ column-major one). -/
def scaleAndRoundActivity (m : List (List ℚ)) (scale : ℚ) (records : ℕ) :
    List (List ℚ) :=
  ((m.take records).map fun row => row.map (scaleCell scale)) ++ m.drop records

/-! ### The record framer and dispatcher, `parseGT3X` (lines 287-371) -/

/-- Diagnostic warnings the parse loop can emit via `Rcout`. -/
inductive Warn where
  | maxSamples : Warn
  | desync : Warn
deriving Repr, DecidableEq

/-- `std::ios::cur`, the `seekdir` constant mistakenly used in the
desync-warning guard `std::ios::cur > 1` (line 340); its value is 1 in
libstdc++, libc++ and MSVC. -/
def iosCur : ℕ := 1

/-- The state of `parseGT3X`'s `while` loop: the stream, the output
containers, and the function-scope locals that persist across iterations
(`type`, `payload_start`, `size` are uninitialized in the C++, modelled as 0;
`start_time` is also uninitialized and is threaded from an explicit initial
value to expose that dependence). -/
structure ParseState where
  stream : GStream
  activity : List (List ℚ)
  timeStamps : List ℤ
  start_time : ℕ
  total_records : ℕ
  rtype : ℕ
  payload_start : ℕ
  size : ℕ
  warnings : List Warn
deriving Repr, DecidableEq

/-- The dispatch on the record type (lines 320-336), run after the header has
been stored into the state and the capacity check has passed.  `n` is the
`sample_size` computed by `bytes2samplesize`. -/
def dispatch (rate : ℕ) (st : ParseState) (n : ℕ) : ParseState :=
  if st.rtype = RECORDTYPE_PARAMETERS then
    let r := ParseParameters st.stream st.size st.start_time
    { st with stream := r.1, start_time := r.2 }
  else if st.rtype = RECORDTYPE_ACTIVITY then
    let r := ParseActivity st.stream st.activity st.timeStamps st.total_records n
      st.payload_start rate st.start_time
    { st with
      stream := r.1
      activity := r.2.1
      timeStamps := r.2.2
      total_records := st.total_records + n }
  else if st.rtype = RECORDTYPE_ACTIVITY2 then
    let r := ParseActivity2 st.stream st.activity st.timeStamps st.total_records n
      st.payload_start rate st.start_time
    { st with
      stream := r.1
      activity := r.2.1
      timeStamps := r.2.2
      total_records := st.total_records + n }
  else
    { st with stream := seekCur st.stream st.size }

/-- One `while (GT3Xstream)` pass of `parseGT3X` (lines 305-343), with a fuel
argument for termination (each iteration either consumes at least one byte or
sets the fail state, so `data.length + 1` fuel always suffices). -/
def parseLoop (max_samples rate : ℕ) : ℕ → ParseState → ParseState
  | 0, st => st
  | fuel + 1, st =>
    if st.stream.failed then st
    else
      let r := st.stream.get
      if r.2.failed then { st with stream := r.2 }
      else if (r.1 % 256).toNat = 30 then
        let h := ParseHeader r.2 st.rtype st.payload_start st.size
        let st1 := { st with
          stream := h.1
          rtype := h.2.1
          payload_start := h.2.2.1
          size := h.2.2.2 }
        let n := bytes2samplesize st1.rtype st1.size
        if (n : ℤ) > (max_samples : ℤ) - (st1.total_records : ℤ) then
          { st1 with warnings := st1.warnings ++ [Warn.maxSamples] }
        else
          let st2 := dispatch rate st1 n
          let rc := st2.stream.get
          parseLoop max_samples rate fuel { st2 with stream := rc.2 }
      else
        let st1 :=
          if iosCur > 1 then { st with stream := r.2, warnings := st.warnings ++ [Warn.desync] }
          else { st with stream := r.2 }
        parseLoop max_samples rate fuel st1

/-- The initial loop state: zero-filled `max_samples × 3` matrix and
`max_samples` timestamp vector; `start_time0` is the arbitrary initial value
of the uninitialized `uint32_t start_time` local. -/
def initState (data : List ℕ) (max_samples start_time0 : ℕ) : ParseState :=
  { stream := { data := data, pos := 0, failed := false }
    activity := List.replicate max_samples [0, 0, 0]
    timeStamps := List.replicate max_samples 0
    start_time := start_time0
    total_records := 0
    rtype := 0
    payload_start := 0
    size := 0
    warnings := [] }

/-- The state after the parse loop has run to completion. -/
def finalState (data : List ℕ) (max_samples rate start_time0 : ℕ) : ParseState :=
  parseLoop max_samples rate (data.length + 1) (initState data max_samples start_time0)

/-- The returned value: the scaled sample matrix and the timestamp vector
truncated to `total_records` rows, with `start_time`/`sample_rate` metadata
(the Rcpp `Range`-based container construction is out of scope and modelled
as `List.take`); `warnings` records the diagnostics emitted on the way. -/
structure ParseResult where
  samples : List (List ℚ)
  time_index : List ℤ
  start_time : ℕ
  sample_rate : ℕ
  warnings : List Warn
deriving Repr, DecidableEq

/-- `parseGT3X(filename, max_samples, scale_factor, sample_rate, verbose,
debug)` on the byte contents `data` of the file; `start_time0` is the
arbitrary initial value of the uninitialized `start_time` local. -/
def parseGT3X (data : List ℕ) (max_samples : ℕ) (scale_factor : ℚ)
    (sample_rate start_time0 : ℕ) : ParseResult :=
  let fin := finalState data max_samples sample_rate start_time0
  let m := scaleAndRoundActivity fin.activity scale_factor fin.total_records
  { samples := m.take fin.total_records
    time_index := fin.timeStamps.take fin.total_records
    start_time := fin.start_time
    sample_rate := sample_rate
    warnings := fin.warnings }

/-! ### Spec-side view of parameter records (§4.2)

Refinement companion to `ParseParametersLoop`: the sequence of decoded
`(address, key, value)` entries, and the spec's "address==1 and key==12 sets
`start_time`, last-write-wins" rule expressed as a fold over that sequence. -/

/-- The list of `(address, key, value)` entries extracted by a parameter
record, with the same little-endian reads and stale-value semantics as the
implementation loop. -/
def paramEntries : GStream → ℕ → ℕ → ℕ → ℕ → List (ℕ × ℕ × ℕ)
  | _, _, _, _, 0 => []
  | s, addr, key, value, n + 1 =>
    let ra := readLEStale s 2 addr
    let rk := readLEStale ra.2 2 key
    let rv := readLEStale rk.2 4 value
    (ra.1, rk.1, rv.1) :: paramEntries rv.2 ra.1 rk.1 rv.1 n

/-- Spec §4.2: `start_time` is set by each entry with address 1 and key 12,
later entries overwriting earlier ones (last-write-wins). -/
def startTimeOfEntries (st0 : ℕ) (es : List (ℕ × ℕ × ℕ)) : ℕ :=
  es.foldl (fun acc e => if e.1 = 1 ∧ e.2.1 = 12 then e.2.2 else acc) st0

/-! ### Concrete byte streams used by the claims -/

/-- The §8 end-to-end scenario stream: one Parameters record (one entry,
address 1, key 12, value 1000) followed by one Activity2 record
(payload_start 1000, size 12 = two samples of X=100, Y=200, Z=300).  Each
record: separator 30, type, payload_start (4 bytes LE), size (2 bytes LE),
payload, one checksum byte. -/
def c3data : List ℕ :=
  [30, 21, 0, 0, 0, 0, 8, 0, 1, 0, 12, 0, 232, 3, 0, 0, 0,
   30, 26, 232, 3, 0, 0, 12, 0, 100, 0, 200, 0, 44, 1, 100, 0, 200, 0, 44, 1, 0]

/-- A 9-byte v1 (12-bit packed) activity payload holding two sample triples:
nibble-wise `0x123 0x456 0x789 0xABC 0xDEF 0x011`. -/
def c4payload : List ℕ := [0x12, 0x34, 0x56, 0x78, 0x9A, 0xBC, 0xDE, 0xF0, 0x11]

/-- An Activity2 record declaring two samples (size 12) whose payload is
truncated after the first sample (100, 200, 300): the stream ends mid-record. -/
def c6data : List ℕ := [30, 26, 0, 0, 0, 0, 12, 0, 100, 0, 200, 0, 44, 1]

/-- An Activity2 record with one sample and `payload_start = 5`, with no
Parameters record anywhere: `start_time` is never assigned. -/
def c10data : List ℕ := [30, 26, 5, 0, 0, 0, 6, 0, 1, 0, 2, 0, 3, 0, 0]

/-- The §8 capacity-exceeded scenario stream: a single Activity2 record
carrying two samples (size 12), to be parsed with `max_samples = 1`. -/
def dcap : List ℕ :=
  [30, 26, 0, 0, 0, 0, 12, 0, 1, 0, 2, 0, 3, 0, 4, 0, 5, 0, 6, 0, 0]

/-- A parse state about to dispatch a Parameters record (used to instantiate
the frame-effect theorem): one entry (address 1, key 12, value 1000) in the
stream, `rtype = 0x15`, `size = 8`. -/
def pstateParams : ParseState :=
  { stream := { data := [1, 0, 12, 0, 232, 3, 0, 0, 0], pos := 0, failed := false }
    activity := [[0, 0, 0]]
    timeStamps := [0]
    start_time := 7
    total_records := 0
    rtype := 21
    payload_start := 123
    size := 8
    warnings := [] }

/-! ## Helper lemmas -/

set_option maxRecDepth 4000 in
theorem signExt12_aux : ∀ a : ℕ, a < 16 → ∀ b : ℕ, b < 256 →
    signExt12 (256 * a + b) =
      if 256 * a + b < 2048 then ((256 * a + b : ℕ) : ℤ)
      else ((256 * a + b : ℕ) : ℤ) - 4096 := by
  with_unfolding_all decide

/-- The 12-bit sign-extension step of the v1 decoder equals two's-complement
reinterpretation of the 12-bit field. -/
theorem signExt12_char (sh : ℕ) (h : sh < 4096) :
    signExt12 sh = if sh < 2048 then (sh : ℤ) else (sh : ℤ) - 4096 := by
  have h1 : sh / 256 < 16 := by omega
  have h2 := signExt12_aux (sh / 256) h1 (sh % 256) (Nat.mod_lt _ (by omega))
  rwa [Nat.div_add_mod sh 256] at h2

/-! ## Claims -/

set_option maxRecDepth 4000 in
/-- C4: in the v1 (12-bit packed) activity decoder, every assembled 12-bit
field is sign-extended (OR `0xF000` when bit 11 is set) and reinterpreted as a
16-bit signed integer, so `0xFFF ↦ -1`, `0x800 ↦ -2048`, `0x001 ↦ 1`; and the
even/odd nibble phase toggles after every decoded value and spans the whole
payload, as witnessed by the 9-byte two-sample payload `c4payload` decoding to
`0x123 0x456 0x789 0xABC 0xDEF 0x011` (second row starting mid-byte). -/
theorem v1_sign_extension_and_phase :
    signExt12 0xFFF = -1 ∧ signExt12 0x800 = -2048 ∧ signExt12 0x001 = 1 ∧
    (∀ sh : ℕ, sh < 4096 →
      signExt12 sh = if sh < 2048 then (sh : ℤ) else (sh : ℤ) - 4096) ∧
    ParseActivity { data := c4payload, pos := 0, failed := false }
        (List.replicate 2 [0, 0, 0]) (List.replicate 2 0) 0 2 0 30 0 =
      ({ data := c4payload, pos := 9, failed := false },
        [[291, 1110, 1929], [-1348, -529, 17]], [0, 3]) := by
  refine ⟨by with_unfolding_all decide, by with_unfolding_all decide,
    by with_unfolding_all decide, signExt12_char, ?_⟩
  with_unfolding_all decide

/-- Witness for the quantified part of `v1_sign_extension_and_phase` at the
concrete field `0xABC = 2748`. -/
theorem v1_sign_extension_witness :
    signExt12 2748 = if 2748 < 2048 then (2748 : ℤ) else (2748 : ℤ) - 4096 :=
  v1_sign_extension_and_phase.2.2.2.1 2748 (by decide)

/-- C8: the expected sample count is `⌊B*2/9⌋` for Activity (0x00),
`⌊(B/2)/3⌋` for Activity2 (0x1A), and 0 for every other record type. -/
theorem bytes2samplesize_formula (bytes ty : ℕ) :
    bytes2samplesize RECORDTYPE_ACTIVITY bytes = bytes * 2 / 9 ∧
    bytes2samplesize RECORDTYPE_ACTIVITY2 bytes = bytes / 2 / 3 ∧
    (ty ≠ RECORDTYPE_ACTIVITY → ty ≠ RECORDTYPE_ACTIVITY2 →
      bytes2samplesize ty bytes = 0) := by
  refine ⟨rfl, rfl, fun h1 h2 => ?_⟩
  simp [bytes2samplesize, h1, h2]

/-- Witness for `bytes2samplesize_formula` at type 0x15 (Parameters). -/
theorem bytes2samplesize_witness : bytes2samplesize 21 800 = 0 :=
  (bytes2samplesize_formula 800 21).2.2 (by decide) (by decide)

set_option maxRecDepth 4000 in
/-- C7: the float parameter codec is total and deterministic: the sentinel
`0x007FFFFF` decodes to `DBL_MAX`, `0x00800000` to `-DBL_MAX`, and every other
32-bit input decodes to
`(sign-extended 24-bit significand / 2^23) * 2^(sign-extended top byte)`,
a finite rational (exactly the `double` the C++ produces). -/
theorem decodeFloat_total_and_sentinels :
    decodeFloatParameterValue PARAM_ENCODED_MAXIMUM = DBL_MAX ∧
    decodeFloatParameterValue PARAM_ENCODED_MINIMUM = -DBL_MAX ∧
    ∀ value : ℕ, value < 2 ^ 32 → value ≠ PARAM_ENCODED_MAXIMUM →
      value ≠ PARAM_ENCODED_MINIMUM →
      decodeFloatParameterValue value =
        ((sext24 (value % 2 ^ 24) : ℚ) / 2 ^ 23) * 2 ^ sext8 (value / 2 ^ 24) := by
  refine ⟨by simp [decodeFloatParameterValue], ?_, ?_⟩
  · simp [decodeFloatParameterValue, PARAM_ENCODED_MINIMUM, PARAM_ENCODED_MAXIMUM]
  intro v hv h1 h2
  unfold decodeFloatParameterValue
  rw [if_neg h1, if_neg h2]
  have hv24 : v / 2 ^ 24 < 256 := by omega
  have he : (if 128 ≤ v / 2 ^ 24 % 256 then toInt32 (0xFFFFFF00 + v / 2 ^ 24 % 256)
      else ((v / 2 ^ 24 % 256 : ℕ) : ℤ)) = sext8 (v / 2 ^ 24) := by
    unfold toInt32 sext8
    split_ifs <;> omega
  have hs : (if 2 ^ 23 ≤ v % 2 ^ 24 then toInt32 (0xFF000000 + v % 2 ^ 24)
      else ((v % 2 ^ 24 : ℕ) : ℤ)) = sext24 (v % 2 ^ 24) := by
    unfold toInt32 sext24
    split_ifs <;> omega
  rw [he, hs]
  norm_num [PARAM_FLOAT_MAXIMUM]

/-- Witness for the quantified part of `decodeFloat_total_and_sentinels` at
`0x17800005` (negative significand, exponent 23). -/
theorem decodeFloat_witness :
    decodeFloatParameterValue 0x17800005 =
      ((sext24 (0x17800005 % 2 ^ 24) : ℚ) / 2 ^ 23) * 2 ^ sext8 (0x17800005 / 2 ^ 24) :=
  decodeFloat_total_and_sentinels.2.2 0x17800005 (by decide) (by decide) (by decide)

/-- C10: with no address-1/key-12 parameter entry in the stream, the returned
data depends on the initial value of the uninitialized `start_time` local: the
same bytes parsed with initial values 0 and 5 give different results (both the
timestamps and the `start_time` attribute differ). -/
theorem start_time_initial_value_leaks :
    parseGT3X c10data 10 100 100 0 ≠ parseGT3X c10data 10 100 100 5 := by
  with_unfolding_all decide

/-- C3 counterexample: in the §8 end-to-end scenario the decoded timestamp
vector is not `[0, 100]` (the second sample at 100 Hz is 1 centisecond after
the first, not 100). -/
theorem c3_timestamps_cex :
    (parseGT3X c3data 10 100 100 0).time_index ≠ [0, 100] := by
  with_unfolding_all decide

set_option maxRecDepth 4000 in
/-- C3 amended: the §8 end-to-end scenario returns `total_records = 2` rows,
row 0 scaled to `[1.0, 2.0, 3.0]`, `start_time = 1000`, and timestamps
`[0, 1]` in centiseconds. -/
theorem c3_end_to_end :
    parseGT3X c3data 10 100 100 0 =
      { samples := [[1, 2, 3], [1, 2, 3]], time_index := [0, 1], start_time := 1000,
        sample_rate := 100, warnings := [] } := by
  with_unfolding_all decide

/-- C5 (code evaluation): on a stream of two non-separator bytes the parser
emits no diagnostic at all — the guard `std::ios::cur > 1` compares the
constant `std::ios::cur = 1`, so the desync warning is unreachable — and
returns the empty result. -/
theorem desync_no_warning_eval :
    parseGT3X [0, 0] 5 1 100 0 =
      { samples := [], time_index := [], start_time := 0, sample_rate := 100,
        warnings := [] } := by
  with_unfolding_all decide

/-- C6 counterexample: an Activity2 record declaring two samples whose stream
ends after the first sample does not stop decoding: the second row is written
with the stale last-read value 300 (scaled to 3), not left at zero. -/
theorem truncated_activity2_cex :
    (parseGT3X c6data 10 100 100 0).samples = [[1, 2, 3], [3, 3, 3]] ∧
    (parseGT3X c6data 10 100 100 0).samples ≠ [[1, 2, 3], [0, 0, 0]] := by
  with_unfolding_all decide

/-- C2 counterexample: at 30 Hz the spacing of consecutive reconstructed
timestamps is not always `round(100/30) = 3`: between sample indices 1 and 2
it is 4. -/
theorem timestamp_spacing_cex :
    ¬ ((createTimeStamp 5 2 30 5 : ℤ) - (createTimeStamp 5 1 30 5 : ℤ) =
      roundAway ((100 : ℚ) / 30)) := by
  with_unfolding_all decide

/-- Closed integer-division form of `createTimeStamp`: writing `d` for the
wrapped difference `payload_start - start_time`, the timestamp is
`(d * 100 + (200*i + rate) / (2*rate)) % 2^32`. -/
theorem createTimeStamp_eq_div (ps i rate st : ℕ) (hr : 0 < rate) :
    createTimeStamp ps i rate st =
      (u32diff ps st * 100 + (200 * i + rate) / (2 * rate)) % 4294967296 := by
  unfold createTimeStamp roundAway TIME_UNIT
  have hq : (0 : ℚ) ≤ ((u32diff ps st : ℚ) + (i : ℚ) * (1 / (rate : ℚ))) * ((100 : ℕ) : ℚ) := by
    positivity
  rw [if_pos hq]
  have hrQ : ((rate : ℚ)) ≠ 0 := Nat.cast_ne_zero.mpr hr.ne'
  have key : ((u32diff ps st : ℚ) + (i : ℚ) * (1 / (rate : ℚ))) * ((100 : ℕ) : ℚ) + 1 / 2
      = ((u32diff ps st * 100 : ℕ) : ℚ)
        + (((200 * i + rate : ℕ) : ℤ) : ℚ) / ((2 * rate : ℕ) : ℚ) := by
    push_cast
    field_simp
    ring
  rw [key, Int.floor_nat_add, Rat.floor_intCast_div_natCast, ← Int.ofNat_ediv,
    ← Nat.cast_add, Int.toNat_natCast]

/-- C2 amended: for `sample_rate ∈ {30, 40, 100}` (with `start_time ≤
payload_start` and no `uint32` wraparound) consecutive per-record timestamps
are non-decreasing, but their spacing equals `round(100/sample_rate)` only at
100 Hz (spacing 1); at 30 Hz it alternates between 3 and 4, and at 40 Hz
between 2 and 3. -/
theorem timestamp_monotone_spacing (ps st i rate : ℕ)
    (hrate : rate = 30 ∨ rate = 40 ∨ rate = 100)
    (hle : st ≤ ps) (hps : ps < 4294967296)
    (hbound : (ps - st) * 100 + i * 100 + 200 < 4294967296) :
    createTimeStamp ps i rate st ≤ createTimeStamp ps (i + 1) rate st ∧
    (rate = 30 → createTimeStamp ps (i + 1) rate st - createTimeStamp ps i rate st = 3 ∨
      createTimeStamp ps (i + 1) rate st - createTimeStamp ps i rate st = 4) ∧
    (rate = 40 → createTimeStamp ps (i + 1) rate st - createTimeStamp ps i rate st = 2 ∨
      createTimeStamp ps (i + 1) rate st - createTimeStamp ps i rate st = 3) ∧
    (rate = 100 → (createTimeStamp ps (i + 1) rate st : ℤ) - createTimeStamp ps i rate st =
      roundAway ((100 : ℚ) / (rate : ℚ))) := by
  have hd : u32diff ps st = ps - st := by
    unfold u32diff
    omega
  rcases hrate with h | h | h <;> subst h <;>
    rw [createTimeStamp_eq_div _ _ _ _ (by norm_num),
      createTimeStamp_eq_div _ _ _ _ (by norm_num), hd] <;>
    [skip; skip;
      have hra : roundAway ((100 : ℚ) / ((100 : ℕ) : ℚ)) = 1 := by norm_num [roundAway]] <;>
    rw [Nat.mod_eq_of_lt (by omega), Nat.mod_eq_of_lt (by omega)]
  · exact ⟨by omega, by omega, by omega, by omega⟩
  · exact ⟨by omega, by omega, by omega, by omega⟩
  · exact ⟨by omega, by omega, by omega, fun _ => by rw [hra]; push_cast; omega⟩

/-- Witness for `timestamp_monotone_spacing` at 100 Hz, `payload_start =
1000`, `start_time = 995`, sample index 0. -/
theorem timestamp_monotone_spacing_witness :
    createTimeStamp 1000 0 100 995 ≤ createTimeStamp 1000 1 100 995 :=
  (timestamp_monotone_spacing 1000 995 0 100 (by decide) (by decide) (by decide)
    (by decide)).1

/-! ### Length preservation of the decoders (toward C1) -/

theorem length_setCell (m : List (List ℚ)) (i j : ℕ) (v : ℚ) :
    (setCell m i j v).length = m.length := by
  simp [setCell]

theorem ParseA2Cols_length (row : ℕ) :
    ∀ (c : ℕ) (s : GStream) (item : ℤ) (m : List (List ℚ)),
      ((ParseA2Cols s item m row c).2.2).length = m.length := by
  intro c
  induction c with
  | zero => intro s item m; rfl
  | succ c ih =>
    intro s item m
    simp only [ParseA2Cols]
    rw [ih, length_setCell]

theorem ParseA2Rows_length (ps rate st start : ℕ) :
    ∀ (c : ℕ) (s : GStream) (item : ℤ) (m : List (List ℚ)) (ts : List ℤ) (i : ℕ),
      ((ParseA2Rows ps rate st start s item m ts i c).2.2.1).length = m.length ∧
      ((ParseA2Rows ps rate st start s item m ts i c).2.2.2).length = ts.length := by
  intro c
  induction c with
  | zero => intro s item m ts i; exact ⟨rfl, rfl⟩
  | succ c ih =>
    intro s item m ts i
    simp only [ParseA2Rows]
    refine ⟨(ih _ _ _ _ _).1.trans (ParseA2Cols_length _ _ _ _ _), ?_⟩
    exact (ih _ _ _ _ _).2.trans (List.length_set _ _ _)

theorem ParseACols_length (row : ℕ) :
    ∀ (c : ℕ) (s : GStream) (odd : Bool) (cur : ℤ) (m : List (List ℚ)),
      ((ParseACols row s odd cur m c).2.2.2).length = m.length := by
  intro c
  induction c with
  | zero => intro s odd cur m; rfl
  | succ c ih =>
    intro s odd cur m
    simp only [ParseACols]
    split
    · rfl
    · rw [ih, length_setCell]

theorem ParseARows_length (ps rate st start : ℕ) :
    ∀ (c : ℕ) (s : GStream) (odd : Bool) (cur : ℤ) (m : List (List ℚ))
      (ts : List ℤ) (i : ℕ),
      ((ParseARows ps rate st start s odd cur m ts i c).2.2.2.1).length = m.length ∧
      ((ParseARows ps rate st start s odd cur m ts i c).2.2.2.2).length = ts.length := by
  intro c
  induction c with
  | zero => intro s odd cur m ts i; exact ⟨rfl, rfl⟩
  | succ c ih =>
    intro s odd cur m ts i
    simp only [ParseARows]
    refine ⟨(ih _ _ _ _ _ _).1.trans (ParseACols_length _ _ _ _ _ _), ?_⟩
    exact (ih _ _ _ _ _ _).2.trans (List.length_set _ _ _)

/-- `dispatch` never shrinks or grows the containers, and advances
`total_records` by at most `n`. -/
theorem dispatch_invariant (rate : ℕ) (st : ParseState) (n : ℕ) :
    (dispatch rate st n).activity.length = st.activity.length ∧
    (dispatch rate st n).timeStamps.length = st.timeStamps.length ∧
    (dispatch rate st n).total_records ≤ st.total_records + n := by
  unfold dispatch
  split_ifs
  · exact ⟨rfl, rfl, Nat.le_add_right _ _⟩
  · exact ⟨(ParseARows_length _ _ _ _ _ _ _ _ _ _ _).1,
      (ParseARows_length _ _ _ _ _ _ _ _ _ _ _).2, le_refl _⟩
  · exact ⟨(ParseA2Rows_length _ _ _ _ _ _ _ _ _ _).1,
      (ParseA2Rows_length _ _ _ _ _ _ _ _ _ _).2, le_refl _⟩
  · exact ⟨rfl, rfl, Nat.le_add_right _ _⟩

/-- The loop invariant: `total_records ≤ max_samples` and both containers keep
their pre-allocated `max_samples` length. -/
theorem parseLoop_invariant (maxS rate : ℕ) :
    ∀ (fuel : ℕ) (st : ParseState),
      st.total_records ≤ maxS → st.activity.length = maxS →
      st.timeStamps.length = maxS →
      (parseLoop maxS rate fuel st).total_records ≤ maxS ∧
      (parseLoop maxS rate fuel st).activity.length = maxS ∧
      (parseLoop maxS rate fuel st).timeStamps.length = maxS := by
  intro fuel
  induction fuel with
  | zero => intro st h1 h2 h3; exact ⟨h1, h2, h3⟩
  | succ fuel ih =>
    intro st h1 h2 h3
    simp only [parseLoop]
    split
    · exact ⟨h1, h2, h3⟩
    split
    · exact ⟨h1, h2, h3⟩
    split
    · split
      · exact ⟨h1, h2, h3⟩
      · rename_i hcap
        refine ih _ ?_ ?_ ?_
        · refine le_trans (dispatch_invariant rate _ _).2.2 ?_
          simp only []
          omega
        · exact (dispatch_invariant rate _ _).1.trans h2
        · exact (dispatch_invariant rate _ _).2.1.trans h3
    · split
      · exact ih _ h1 h2 h3
      · exact ih _ h1 h2 h3

/-- The scaling pass does not change the number of rows. -/
theorem scaleAndRoundActivity_length (m : List (List ℚ)) (scale : ℚ) (records : ℕ) :
    (scaleAndRoundActivity m scale records).length = m.length := by
  simp [scaleAndRoundActivity]
  omega

/-- C1: for every input stream and positive `max_samples`, `total_records`
never exceeds `max_samples` and the returned sample table and timestamp
vector have exactly `total_records` rows (also when `total_records = 0`); and
whenever the expected sample count of an incoming record exceeds the remaining
capacity, the loop stops at once — nothing is written except the header
locals, and a capacity warning is appended. -/
theorem capacity_bound_and_truncation :
    (∀ (data : List ℕ) (maxS : ℕ) (scale : ℚ) (rate st0 : ℕ), 0 < maxS →
      (finalState data maxS rate st0).total_records ≤ maxS ∧
      (parseGT3X data maxS scale rate st0).samples.length =
        (finalState data maxS rate st0).total_records ∧
      (parseGT3X data maxS scale rate st0).time_index.length =
        (finalState data maxS rate st0).total_records) ∧
    (∀ (maxS rate fuel : ℕ) (st : ParseState),
      st.stream.failed = false →
      st.stream.data[st.stream.pos]? = some 30 →
      ((bytes2samplesize
          (ParseHeader { data := st.stream.data, pos := st.stream.pos + 1, failed := false }
            st.rtype st.payload_start st.size).2.1
          (ParseHeader { data := st.stream.data, pos := st.stream.pos + 1, failed := false }
            st.rtype st.payload_start st.size).2.2.2 : ℤ)
        > (maxS : ℤ) - (st.total_records : ℤ)) →
      parseLoop maxS rate (fuel + 1) st =
        { st with
          stream := (ParseHeader
            { data := st.stream.data, pos := st.stream.pos + 1, failed := false }
            st.rtype st.payload_start st.size).1
          rtype := (ParseHeader
            { data := st.stream.data, pos := st.stream.pos + 1, failed := false }
            st.rtype st.payload_start st.size).2.1
          payload_start := (ParseHeader
            { data := st.stream.data, pos := st.stream.pos + 1, failed := false }
            st.rtype st.payload_start st.size).2.2.1
          size := (ParseHeader
            { data := st.stream.data, pos := st.stream.pos + 1, failed := false }
            st.rtype st.payload_start st.size).2.2.2
          warnings := st.warnings ++ [Warn.maxSamples] }) := by
  constructor
  · intro data maxS scale rate st0 _
    have hinv := parseLoop_invariant maxS rate (data.length + 1)
      (initState data maxS st0) (Nat.zero_le _) (by simp [initState])
      (by simp [initState])
    refine ⟨hinv.1, ?_, ?_⟩
    · simp only [parseGT3X, finalState]
      rw [List.length_take, scaleAndRoundActivity_length, hinv.2.1]
      exact min_eq_left hinv.1
    · simp only [parseGT3X, finalState]
      rw [List.length_take, hinv.2.2]
      exact min_eq_left hinv.1
  · intro maxS rate fuel st hf hb hcap
    simp only [parseLoop, GStream.get, hf, hb, Bool.false_eq_true, if_false]
    norm_num [Int.toNat_ofNat]
    rw [if_pos hcap, if_pos (show Int.toNat 30 = 30 from rfl)]

/-- Witness for `capacity_bound_and_truncation` on the §8 capacity-exceeded
scenario: `dcap` (one Activity2 record with 2 samples) with `max_samples = 1`. -/
theorem capacity_bound_witness :
    ((finalState dcap 1 100 0).total_records ≤ 1 ∧
      (parseGT3X dcap 1 1 100 0).samples.length =
        (finalState dcap 1 100 0).total_records ∧
      (parseGT3X dcap 1 1 100 0).time_index.length =
        (finalState dcap 1 100 0).total_records) ∧
    parseLoop 1 100 (0 + 1) (initState dcap 1 0) =
      { initState dcap 1 0 with
        stream := (ParseHeader
          { data := (initState dcap 1 0).stream.data,
            pos := (initState dcap 1 0).stream.pos + 1, failed := false }
          (initState dcap 1 0).rtype (initState dcap 1 0).payload_start
          (initState dcap 1 0).size).1
        rtype := (ParseHeader
          { data := (initState dcap 1 0).stream.data,
            pos := (initState dcap 1 0).stream.pos + 1, failed := false }
          (initState dcap 1 0).rtype (initState dcap 1 0).payload_start
          (initState dcap 1 0).size).2.1
        payload_start := (ParseHeader
          { data := (initState dcap 1 0).stream.data,
            pos := (initState dcap 1 0).stream.pos + 1, failed := false }
          (initState dcap 1 0).rtype (initState dcap 1 0).payload_start
          (initState dcap 1 0).size).2.2.1
        size := (ParseHeader
          { data := (initState dcap 1 0).stream.data,
            pos := (initState dcap 1 0).stream.pos + 1, failed := false }
          (initState dcap 1 0).rtype (initState dcap 1 0).payload_start
          (initState dcap 1 0).size).2.2.2
        warnings := (initState dcap 1 0).warnings ++ [Warn.maxSamples] } :=
  ⟨capacity_bound_and_truncation.1 dcap 1 1 100 0 (by decide),
    capacity_bound_and_truncation.2 1 100 0 (initState dcap 1 0)
      (by decide) (by decide) (by decide)⟩

/-! ### Toward C6: the v2 decoder on an exhausted stream -/

theorem readLEStale_failed (s : GStream) (w old : ℕ) (h : s.failed = true) :
    readLEStale s w old = (old, s) := by
  cases w
  · rfl
  · simp [readLEStale, h]

theorem toInt16_uint16Rep (item : ℤ) (h1 : -32768 ≤ item) (h2 : item < 32768) :
    toInt16 (uint16Rep item) = item := by
  unfold toInt16 uint16Rep
  split <;> omega

theorem setCell_fill3 (m : List (List ℚ)) (R : ℕ) (v : ℚ) (hR : R < m.length)
    (h3 : ∀ r ∈ m, r.length = 3) :
    setCell (setCell (setCell m R 0 v) R 1 v) R 2 v = m.set R [v, v, v] := by
  obtain ⟨a, b, c, hr⟩ := List.length_eq_three.mp (h3 _ (List.getElem_mem hR))
  have e1 : setCell m R 0 v = m.set R [v, b, c] := by
    unfold setCell
    rw [List.getD_eq_getElem?_getD, List.getElem?_eq_getElem hR, hr]
    rfl
  have e2 : setCell (m.set R [v, b, c]) R 1 v = m.set R [v, v, c] := by
    unfold setCell
    rw [List.getD_eq_getElem?_getD, List.getElem?_set_self hR, List.set_set]
    rfl
  have e3 : setCell (m.set R [v, v, c]) R 2 v = m.set R [v, v, v] := by
    unfold setCell
    rw [List.getD_eq_getElem?_getD, List.getElem?_set_self hR, List.set_set]
    rfl
  rw [e1, e2, e3]

theorem ParseA2Cols_failed (s : GStream) (item : ℤ) (m : List (List ℚ)) (row : ℕ)
    (hf : s.failed = true) (h1 : -32768 ≤ item) (h2 : item < 32768) :
    ParseA2Cols s item m row 3 =
      (s, item,
        setCell (setCell (setCell m row 0 (item : ℚ)) row 1 (item : ℚ)) row 2 (item : ℚ)) := by
  simp [ParseA2Cols, readLEStale_failed _ _ _ hf, toInt16_uint16Rep _ h1 h2]

/-- C6 amended: when the stream is already exhausted (fail state set), the v2
activity decoder does not stop: it keeps writing rows — every remaining row of
the record receives the stale `item` value on all three axes (not zero) — while
the stream itself is untouched (no error, so the caller's loop terminates
normally afterwards); rows before the record's range are unchanged. -/
theorem activity2_stale_rows (ps rate st start : ℕ) :
    ∀ (cnt : ℕ) (s : GStream) (item : ℤ) (m : List (List ℚ)) (ts : List ℤ) (i : ℕ),
      s.failed = true → -32768 ≤ item → item < 32768 →
      i + cnt + start ≤ m.length → (∀ r ∈ m, r.length = 3) →
      (ParseA2Rows ps rate st start s item m ts i cnt).1 = s ∧
      (∀ j, j < i + start →
        (ParseA2Rows ps rate st start s item m ts i cnt).2.2.1[j]? = m[j]?) ∧
      ∀ k, k < cnt →
        (ParseA2Rows ps rate st start s item m ts i cnt).2.2.1[i + k + start]? =
          some [(item : ℚ), item, item] := by
  intro cnt
  induction cnt with
  | zero =>
    intro s item m ts i hf h1 h2 hlen hrows
    exact ⟨rfl, fun j _ => rfl, fun k hk => absurd hk (Nat.not_lt_zero k)⟩
  | succ c ih =>
    intro s item m ts i hf h1 h2 hlen hrows
    have hR : i + start < m.length := by omega
    have hcols := ParseA2Cols_failed s item m (i + start) hf h1 h2
    have hfill := setCell_fill3 m (i + start) (item : ℚ) hR hrows
    simp only [ParseA2Rows, hcols, hfill]
    have hlen' : (i + 1) + c + start ≤ (m.set (i + start) [(item : ℚ), item, item]).length := by
      rw [List.length_set]
      omega
    have hrows' : ∀ r ∈ m.set (i + start) [(item : ℚ), item, item], r.length = 3 := by
      intro r hrm
      rcases List.mem_or_eq_of_mem_set hrm with h | h
      · exact hrows r h
      · subst h; rfl
    have IH := ih s item (m.set (i + start) [(item : ℚ), item, item])
      ((ts.set (i + start) (toInt32 (createTimeStamp ps i rate st)))) (i + 1)
      hf h1 h2 hlen' hrows'
    refine ⟨IH.1, ?_, ?_⟩
    · intro j hj
      rw [IH.2.1 j (by omega)]
      exact List.getElem?_set_ne (by omega)
    · intro k hk
      cases k with
      | zero =>
        simp only [Nat.add_zero]
        rw [IH.2.1 (i + start) (by omega)]
        exact List.getElem?_set_self hR
      | succ k' =>
        have hidx : i + (k' + 1) + start = i + 1 + k' + start := by omega
        rw [hidx]
        exact IH.2.2 k' (by omega)

/-- Witness for `activity2_stale_rows`: a 2-row matrix, an exhausted stream,
stale `item = 300`. -/
theorem activity2_stale_rows_witness :
    (ParseA2Rows 0 100 0 0 ⟨[], 0, true⟩ 300 [[0, 0, 0], [0, 0, 0]] [0, 0] 0 2).1 =
      ⟨[], 0, true⟩ ∧
    (∀ j, j < 0 + 0 →
      (ParseA2Rows 0 100 0 0 ⟨[], 0, true⟩ 300 [[0, 0, 0], [0, 0, 0]] [0, 0] 0 2).2.2.1[j]? =
        [[(0 : ℚ), 0, 0], [0, 0, 0]][j]?) ∧
    ∀ k, k < 2 →
      (ParseA2Rows 0 100 0 0 ⟨[], 0, true⟩ 300 [[0, 0, 0], [0, 0, 0]] [0, 0] 0 2).2.2.1[0 + k + 0]? =
        some [(300 : ℚ), 300, 300] :=
  activity2_stale_rows 0 100 0 0 2 ⟨[], 0, true⟩ 300 [[0, 0, 0], [0, 0, 0]] [0, 0] 0
    rfl (by decide) (by decide) (by decide) (by decide)

/-! ### Toward C9: parameter records -/

theorem startTimeOfEntries_cons (st : ℕ) (e : ℕ × ℕ × ℕ) (es : List (ℕ × ℕ × ℕ)) :
    startTimeOfEntries st (e :: es) =
      startTimeOfEntries (if e.1 = 1 ∧ e.2.1 = 12 then e.2.2 else st) es := rfl

/-- C9: a parameter record's only durable effect is on `start_time`: the loop
computes exactly the last-write-wins fold of the spec's "address 1, key 12"
rule over the decoded entries, and the dispatch of a Parameters record leaves
the sample table, the timestamp vector and `total_records` unchanged. -/
theorem parameters_only_start_time :
    (∀ (n : ℕ) (s : GStream) (addr key value st0 : ℕ),
      (ParseParametersLoop s addr key value st0 n).2 =
        startTimeOfEntries st0 (paramEntries s addr key value n)) ∧
    (∀ (rate : ℕ) (st : ParseState) (n : ℕ), st.rtype = RECORDTYPE_PARAMETERS →
      (dispatch rate st n).activity = st.activity ∧
      (dispatch rate st n).timeStamps = st.timeStamps ∧
      (dispatch rate st n).total_records = st.total_records ∧
      (dispatch rate st n).start_time =
        startTimeOfEntries st.start_time
          (paramEntries st.stream 0 0 0 (st.size / 8))) := by
  have hfold : ∀ (n : ℕ) (s : GStream) (addr key value st0 : ℕ),
      (ParseParametersLoop s addr key value st0 n).2 =
        startTimeOfEntries st0 (paramEntries s addr key value n) := by
    intro n
    induction n with
    | zero => intro s addr key value st0; rfl
    | succ n ih =>
      intro s addr key value st0
      simp only [ParseParametersLoop, paramEntries, startTimeOfEntries_cons]
      rw [ih]
      congr 1
      split_ifs <;> omega
  refine ⟨hfold, ?_⟩
  intro rate st n hty
  unfold dispatch
  rw [if_pos hty]
  exact ⟨rfl, rfl, rfl, hfold _ _ _ _ _ _⟩

/-- Witness for the dispatch part of `parameters_only_start_time` at the
concrete state `pstateParams`. -/
theorem parameters_only_start_time_witness :
    (dispatch 100 pstateParams 0).activity = pstateParams.activity ∧
    (dispatch 100 pstateParams 0).timeStamps = pstateParams.timeStamps ∧
    (dispatch 100 pstateParams 0).total_records = pstateParams.total_records ∧
    (dispatch 100 pstateParams 0).start_time =
      startTimeOfEntries pstateParams.start_time
        (paramEntries pstateParams.stream 0 0 0 (pstateParams.size / 8)) :=
  parameters_only_start_time.2 100 pstateParams 0 rfl

end GT3X
